import Mathlib

/-!
# video-transcoding-api: the persisted record types and their flat hash mapping

Sources embedded here:

* `db/types.go`: the record types `Job`, `TranscodeOutput`, `StreamingParams`,
  `LocalPreset`, `Preset`, `VideoPreset`, `AudioPreset`, `ThumbnailPreset`,
  `PresetMap`, `OutputOptions`, every field with its struct tag copied verbatim,
  and the method `OutputOptions.Validate`.
* `db/redis/redis.go`: `NewRepository` and `redisRepository`.

The package that turns a tagged record into a flat hash and back
(`db/redis/storage`) is outside the embedded sources; it is modelled from the
specification (§4.1 to §4.3), and every definition of that model says so.
-/

set_option maxRecDepth 100000
set_option maxHeartbeats 4000000

namespace reflect

/-! ## Struct tags (`reflect.StructTag`)

The tag of a field is the text between the back quotes of its declaration.
`Lookup` follows the conventional `name:"value"` scanning of Go's `reflect`
package, which is how a `redis-hash` entry is read from a tag. -/

/-- Characters that may stand in the name part of a tag entry: anything above a
blank other than a colon, a double quote and DEL. -/
def nameChar (c : Char) : Bool :=
  decide (32 < c.toNat) && c != ':' && c != '"' && decide (c.toNat ≠ 127)

/-- Scans a quoted value after its opening quote: the raw contents up to the
closing quote and the text after it; a backslash takes the next character with
it. `none` when the closing quote is missing. -/
def scanValue : List Char → Option (List Char × List Char)
  | [] => none
  | c :: rest =>
    if c = '"' then some ([], rest)
    else if c = '\\' then
      match rest with
      | [] => none
      | d :: rest2 => (scanValue rest2).map fun vr => (c :: d :: vr.1, vr.2)
    else (scanValue rest).map fun vr => (c :: vr.1, vr.2)

/-- The value of a quoted string without escape sequences is its contents.
Escape sequences, which no tag of this package uses, are not interpreted. -/
def unquote (v : List Char) : Option String :=
  if v.contains '\\' || v.contains '\n' then none else some (String.mk v)

/-- One round of the `Lookup` loop per unit of `fuel`; every round consumes at
least four characters of the tag, so the length of the tag is enough fuel. -/
def lookupAux (key : List Char) : Nat → List Char → Option String
  | 0, _ => none
  | fuel + 1, tag =>
    let tag1 := tag.dropWhile (fun c => c == ' ')
    let name := tag1.takeWhile nameChar
    match tag1.dropWhile nameChar with
    | c1 :: c2 :: rest =>
      if name = [] ∨ c1 ≠ ':' ∨ c2 ≠ '"' then none
      else
        match scanValue rest with
        | none => none
        | some (v, rest2) =>
          if name = key then unquote v else lookupAux key fuel rest2
    | _ => none

/-- `StructTag.Lookup`: the value recorded under `key` in the tag, when there is
one. -/
def StructTag.Lookup (tag key : String) : Option String :=
  lookupAux key.data (tag.length + 1) tag.data

end reflect

namespace db

/-! ## The declarations of `db/types.go` as data -/

/-- The struct types declared in `db/types.go`. -/
inductive RecordType
  | Job
  | TranscodeOutput
  | StreamingParams
  | LocalPreset
  | Preset
  | VideoPreset
  | AudioPreset
  | ThumbnailPreset
  | PresetMap
  | OutputOptions
  deriving DecidableEq, Repr

/-- The Go types that occur as field types in `db/types.go`. -/
inductive GoType
  | string
  | bool
  | uint
  | time
  | mapStringString
  | struct (ty : RecordType)
  | sliceOf (ty : RecordType)
  deriving DecidableEq, Repr

/-- A field of a struct declaration: name, type and raw struct tag. -/
structure StructField where
  name : String
  type : GoType
  tag : String
  deriving DecidableEq, Repr

/-- Fields of `type Job struct`. -/
def JobFields : List StructField :=
  [ ⟨"ID", .string, "redis-hash:\"jobID\" json:\"jobId\""⟩,
    ⟨"ProviderName", .string, "redis-hash:\"providerName\" json:\"providerName\""⟩,
    ⟨"ProviderJobID", .string, "redis-hash:\"providerJobID\" json:\"providerJobId\""⟩,
    ⟨"StreamingParams", .struct .StreamingParams,
      "redis-hash:\"streamingparams,expand\" json:\"streamingParams,omitempty\""⟩,
    ⟨"CreationTime", .time, "redis-hash:\"creationTime\" json:\"creationTime\""⟩,
    ⟨"SourceMedia", .string, "redis-hash:\"source\" json:\"source\""⟩,
    ⟨"Outputs", .sliceOf .TranscodeOutput, "redis-hash:\"-\" json:\"outputs\""⟩ ]

/-- Fields of `type TranscodeOutput struct`. -/
def TranscodeOutputFields : List StructField :=
  [ ⟨"Preset", .struct .PresetMap, "redis-hash:\"presetmap,expand\" json:\"presetmap\""⟩,
    ⟨"FileName", .string, "redis-hash:\"filename\" json:\"filename\""⟩ ]

/-- Fields of `type StreamingParams struct`. -/
def StreamingParamsFields : List StructField :=
  [ ⟨"SegmentDuration", .uint, "redis-hash:\"segmentDuration\" json:\"segmentDuration\""⟩,
    ⟨"Protocol", .string, "redis-hash:\"protocol\" json:\"protocol\""⟩,
    ⟨"PlaylistFileName", .string,
      "redis-hash:\"playlistFileName\" json:\"playlistFileName,omitempty\""⟩ ]

/-- Fields of `type LocalPreset struct`. -/
def LocalPresetFields : List StructField :=
  [ ⟨"Name", .string, "redis-hash:\"-\" json:\"name\""⟩,
    ⟨"Preset", .struct .Preset, "redis-hash:\"preset,expand\" json:\"preset\""⟩ ]

/-- Fields of `type Preset struct`. -/
def PresetFields : List StructField :=
  [ ⟨"Name", .string, "json:\"name,omitempty\" redis-hash:\"name\""⟩,
    ⟨"Description", .string,
      "json:\"description,omitempty\" redis-hash:\"description,omitempty\""⟩,
    ⟨"Container", .string, "json:\"container,omitempty\" redis-hash:\"container,omitempty\""⟩,
    ⟨"RateControl", .string,
      "json:\"rateControl,omitempty\" redis-hash:\"ratecontrol,omitempty\""⟩,
    ⟨"TwoPass", .bool, "json:\"twoPass\" redis-hash:\"twopass\""⟩,
    ⟨"Video", .struct .VideoPreset, "json:\"video\" redis-hash:\"video,expand\""⟩,
    ⟨"Audio", .struct .AudioPreset, "json:\"audio\" redis-hash:\"audio,expand\""⟩,
    ⟨"Thumbnail", .struct .ThumbnailPreset,
      "json:\"thumbnail\" redis-hash:\"thumbnail,expand\""⟩ ]

/-- Fields of `type VideoPreset struct`. -/
def VideoPresetFields : List StructField :=
  [ ⟨"Profile", .string, "json:\"profile,omitempty\" redis-hash:\"profile,omitempty\""⟩,
    ⟨"ProfileLevel", .string,
      "json:\"profileLevel,omitempty\" redis-hash:\"profilelevel,omitempty\""⟩,
    ⟨"Width", .string, "json:\"width,omitempty\" redis-hash:\"width,omitempty\""⟩,
    ⟨"Height", .string, "json:\"height,omitempty\" redis-hash:\"height,omitempty\""⟩,
    ⟨"Codec", .string, "json:\"codec,omitempty\" redis-hash:\"codec,omitempty\""⟩,
    ⟨"Bitrate", .string, "json:\"bitrate,omitempty\" redis-hash:\"bitrate,omitempty\""⟩,
    ⟨"GopSize", .string, "json:\"gopSize,omitempty\" redis-hash:\"gopsize,omitempty\""⟩,
    ⟨"GopMode", .string, "json:\"gopMode,omitempty\" redis-hash:\"gopmode,omitempty\""⟩,
    ⟨"InterlaceMode", .string,
      "json:\"interlaceMode,omitempty\" redis-hash:\"interlacemode,omitempty\""⟩,
    ⟨"BFrames", .string, "json:\"bframes,omitempty\" redis-hash:\"bframes,omitempty\""⟩ ]

/-- Fields of `type AudioPreset struct`. -/
def AudioPresetFields : List StructField :=
  [ ⟨"Codec", .string, "json:\"codec,omitempty\" redis-hash:\"codec,omitempty\""⟩,
    ⟨"Bitrate", .string, "json:\"bitrate,omitempty\" redis-hash:\"bitrate,omitempty\""⟩ ]

/-- Fields of `type ThumbnailPreset struct`. The tags of the last four fields
read `redish-hash,omitempty` after the `json` entry, exactly as declared. -/
def ThumbnailPresetFields : List StructField :=
  [ ⟨"Codec", .string, "json:\"codec,omitempty\" redis-hash:\"codec,omitempty\""⟩,
    ⟨"Width", .string, "json:\"width,omitempty\" redis-hash:\"width,omitempty\""⟩,
    ⟨"Height", .string, "json:\"height,omitempty\" redis-hash:\"height,omitempty\""⟩,
    ⟨"FrameCaptureNumerator", .string,
      "json:\"frameCaptureNumerator,omitempty\" redish-hash,omitempty"⟩,
    ⟨"FrameCaptureDenominator", .string,
      "json:\"frameCaptureDenominator,omitempty\" redish-hash,omitempty"⟩,
    ⟨"Quality", .string, "json:\"frameCaptureQuality,omitempty\" redish-hash,omitempty"⟩,
    ⟨"MaxCaptures", .string, "json:\"maxCaptures,omitempty\" redish-hash,omitempty"⟩ ]

/-- Fields of `type PresetMap struct`. -/
def PresetMapFields : List StructField :=
  [ ⟨"Name", .string, "redis-hash:\"presetmap_name\" json:\"name\""⟩,
    ⟨"ProviderMapping", .mapStringString,
      "redis-hash:\"pmapping,expand\" json:\"providerMapping\""⟩,
    ⟨"OutputOpts", .struct .OutputOptions, "redis-hash:\"output,expand\" json:\"output\""⟩ ]

/-- Fields of `type OutputOptions struct`. -/
def OutputOptionsFields : List StructField :=
  [ ⟨"Extension", .string, "redis-hash:\"extension\" json:\"extension\""⟩ ]

/-- The struct types of `db/types.go` in declaration order. -/
def recordTypes : List RecordType :=
  [ .Job, .TranscodeOutput, .StreamingParams, .LocalPreset, .Preset, .VideoPreset,
    .AudioPreset, .ThumbnailPreset, .PresetMap, .OutputOptions ]

/-- The declaration of a struct type. -/
def fieldsOf : RecordType → List StructField
  | .Job => JobFields
  | .TranscodeOutput => TranscodeOutputFields
  | .StreamingParams => StreamingParamsFields
  | .LocalPreset => LocalPresetFields
  | .Preset => PresetFields
  | .VideoPreset => VideoPresetFields
  | .AudioPreset => AudioPresetFields
  | .ThumbnailPreset => ThumbnailPresetFields
  | .PresetMap => PresetMapFields
  | .OutputOptions => OutputOptionsFields

/-- The `redis-hash` entry of a field's tag, when the tag has one. -/
def StructField.redisHash (f : StructField) : Option String :=
  reflect.StructTag.Lookup f.tag "redis-hash"

/-- Every field declared in `db/types.go`, with the name of its struct type. -/
def allFields : List (RecordType × StructField) :=
  recordTypes.flatMap fun ty => (fieldsOf ty).map fun f => (ty, f)

/-! ## The field-mapping tag vocabulary -/

/-- Splits at commas; the pieces of `"a,b"` are `a` and `b`. -/
def splitComma : List Char → List (List Char)
  | [] => [[]]
  | c :: rest =>
    if c = ',' then [] :: splitComma rest
    else
      match splitComma rest with
      | [] => [[c]]
      | p :: ps => (c :: p) :: ps

/-- The mapping mode of a field. -/
inductive FieldMode
  | unmapped
  | excluded
  | flat (key : String) (omitempty : Bool)
  | expand (key : String) (omitempty : Bool)
  deriving DecidableEq, Repr

/-- Modelled from the spec: the tag vocabulary of the hash codec of package
`db/redis/storage`, which is outside the embedded sources. A `redis-hash` entry
names a hash key, optionally followed by `expand` and `omitempty`; the entry
`-` excludes the field. A field whose tag has no `redis-hash` entry, or an
empty key, declares no hash key and is left unmapped. -/
def parseTag : Option String → FieldMode
  | none => .unmapped
  | some v =>
    if v = "-" then .excluded
    else
      match (splitComma v.data).map String.mk with
      | [] => .unmapped
      | key :: opts =>
        if key = "" then .unmapped
        else if opts.contains "expand" then .expand key (opts.contains "omitempty")
        else .flat key (opts.contains "omitempty")

/-- Modelled from the spec: a well-formed `redis-hash` tag is either the
exclusion `-` or a non-empty hash key followed by options taken from `expand`
and `omitempty`. -/
def wellFormedTag : Option String → Bool
  | none => false
  | some v =>
    v == "-" ||
      match (splitComma v.data).map String.mk with
      | [] => false
      | key :: opts => key != "" && opts.all fun o => o == "expand" || o == "omitempty"

/-- The fields of a struct type with their mapping modes, as the tags declare
them. -/
def parsedFields (ty : RecordType) : List (String × GoType × FieldMode) :=
  (fieldsOf ty).map fun f => (f.name, f.type, parseTag f.redisHash)

/-- The mapping mode of field `name` of struct type `ty`. -/
def mode (ty : RecordType) (name : String) : FieldMode :=
  match (parsedFields ty).find? fun f => f.1 == name with
  | some f => f.2.2
  | none => .unmapped

/-! ## The record types -/

/-- An instant, standing for `time.Time`: the nanoseconds since the zero value
of `time.Time`. -/
structure Time where
  nanos : Int := 0
  deriving DecidableEq, Repr

/-- A Go `map[string]string`, as the list of its entries. -/
abbrev StringMap := List (String × String)

/-- The Go type `OutputOptions`. Its doc comment asks for the extension without
the dot: `webm`, not `.webm`. -/
structure OutputOptions where
  Extension : String := ""
  deriving DecidableEq, Repr

/-- The Go type `PresetMap`. -/
structure PresetMap where
  Name : String := ""
  ProviderMapping : StringMap := []
  OutputOpts : OutputOptions := {}
  deriving DecidableEq, Repr

/-- The Go type `TranscodeOutput`. -/
structure TranscodeOutput where
  Preset : PresetMap := {}
  FileName : String := ""
  deriving DecidableEq, Repr

/-- The Go type `StreamingParams`; `SegmentDuration` is a `uint`. -/
structure StreamingParams where
  SegmentDuration : Nat := 0
  Protocol : String := ""
  PlaylistFileName : String := ""
  deriving DecidableEq, Repr

/-- The Go type `Job`. -/
structure Job where
  ID : String := ""
  ProviderName : String := ""
  ProviderJobID : String := ""
  StreamingParams : StreamingParams := {}
  CreationTime : Time := {}
  SourceMedia : String := ""
  Outputs : List TranscodeOutput := []
  deriving DecidableEq, Repr

/-- The Go type `VideoPreset`. -/
structure VideoPreset where
  Profile : String := ""
  ProfileLevel : String := ""
  Width : String := ""
  Height : String := ""
  Codec : String := ""
  Bitrate : String := ""
  GopSize : String := ""
  GopMode : String := ""
  InterlaceMode : String := ""
  BFrames : String := ""
  deriving DecidableEq, Repr

/-- The Go type `AudioPreset`. -/
structure AudioPreset where
  Codec : String := ""
  Bitrate : String := ""
  deriving DecidableEq, Repr

/-- The Go type `ThumbnailPreset`. -/
structure ThumbnailPreset where
  Codec : String := ""
  Width : String := ""
  Height : String := ""
  FrameCaptureNumerator : String := ""
  FrameCaptureDenominator : String := ""
  Quality : String := ""
  MaxCaptures : String := ""
  deriving DecidableEq, Repr

/-- The Go type `Preset`. -/
structure Preset where
  Name : String := ""
  Description : String := ""
  Container : String := ""
  RateControl : String := ""
  TwoPass : Bool := false
  Video : VideoPreset := {}
  Audio : AudioPreset := {}
  Thumbnail : ThumbnailPreset := {}
  deriving DecidableEq, Repr

/-- The Go type `LocalPreset`. -/
structure LocalPreset where
  Name : String := ""
  Preset : Preset := {}
  deriving DecidableEq, Repr

/-- A Go `error` made by `errors.New`: its message. -/
structure GoError where
  msg : String
  deriving DecidableEq, Repr

/-- The method `(o *OutputOptions) Validate() error`, documented as checking
that the `OutputOptions` object is properly defined. The first component is the
receiver as the call leaves it (the body assigns nothing), the second the
returned error, `none` for `nil`. -/
def OutputOptions.Validate (o : OutputOptions) : OutputOptions × Option GoError :=
  if o.Extension = "" then (o, some ⟨"extension is required"⟩)
  else (o, none)

/-- Whether a string starts with a dot. -/
def startsWithDot (s : String) : Bool :=
  s.data.head? == some '.'

/-! ## The flat hash and the textual encodings of scalar values -/

/-- Modelled from the spec: the flat hash representation, a mapping from string
keys to string values, kept as the writes made to it, the most recent first. A
key holds the value written to it last. -/
abbrev Hash := List (String × String)

/-- The value a hash holds under a key. -/
def Hash.get (h : Hash) (k : String) : Option String :=
  List.lookup k h

/-- Modelled from the spec: a decode failure (§4.3), which identifies the
offending key and its raw value. -/
structure DecodeError where
  key : String
  raw : String
  deriving DecidableEq, Repr

deriving instance DecidableEq for Except

/-- Modelled from the spec: the canonical text of a boolean (§4.1). -/
def formatBool (b : Bool) : String :=
  if b then "true" else "false"

/-- Modelled from the spec: reading the text of a boolean (§4.3); any other
text is a failure. -/
def parseBool (s : String) : Option Bool :=
  if s = "true" then some true else if s = "false" then some false else none

/-- The character of a decimal digit. -/
def digitChar (d : Nat) : Char :=
  Char.ofNat (48 + d)

/-- The value of a decimal digit character. -/
def digitVal (c : Char) : Option Nat :=
  if 48 ≤ c.toNat ∧ c.toNat ≤ 57 then some (c.toNat - 48) else none

/-- Modelled from the spec: the canonical text of a number (§4.1), its decimal
digits. -/
def formatUint (n : Nat) : String :=
  if n = 0 then "0" else String.mk ((Nat.digits 10 n).reverse.map digitChar)

/-- Reads decimal digits onto an accumulator, left to right. -/
def parseDigits : Nat → List Char → Option Nat
  | acc, [] => some acc
  | acc, c :: cs =>
    match digitVal c with
    | some d => parseDigits (acc * 10 + d) cs
    | none => none

/-- Modelled from the spec: reading the text of a `uint` field (§4.3), 64 bits
wide: digits only, at least one, and a value below `2 ^ 64`; anything else is a
failure. -/
def parseUint (s : String) : Option Nat :=
  match s.data with
  | [] => none
  | cs =>
    match parseDigits 0 cs with
    | some n => if n < 2 ^ 64 then some n else none
    | none => none

/-- Modelled from the spec: the fixed textual timestamp format of §4.1, how an
instant is written and how a text is read as an instant. The spec does not name
the format, so it stays a parameter of the codec. -/
structure TimeFormat where
  format : Time → String
  parse : String → Option Time

/-- How the keys of an expanded sub-record are named inside its parent: `qual`
gives the parent's key for a key of the field named `name`, `unqual` recovers
the sub-record's key from a key of the parent, when that key belongs to the
field. -/
structure KeyNaming where
  qual : String → String → String
  unqual : String → String → Option String

/-- Modelled from the spec: the merge of §4.1, done by package
`db/redis/storage`. An expanded sub-record's keys go into the parent's namespace
as they are, with no prefix, and the sub-record reads the whole shared
namespace. -/
def noPrefix : KeyNaming where
  qual := fun _ k => k
  unqual := fun _ k => some k

/-- Removes a prefix from a text, when the text starts with it. -/
def stripPrefix : List Char → List Char → Option (List Char)
  | [], s => some s
  | _ :: _, [] => none
  | p :: ps, c :: cs => if p = c then stripPrefix ps cs else none

/-- Modelled from the spec: the key naming of the scenario of §8, which writes
the key of `Video.Codec` as `video.codec`. An expanded key is the key declared
by the expand field, a dot, and the sub-record's key. -/
def dotted : KeyNaming where
  qual := fun name k => name ++ "." ++ k
  unqual := fun name k => (stripPrefix (name.data ++ ['.']) k.data).map String.mk

/-- Modelled from the spec: the step of the encoder of §4.2 for a flat field.
The text of the field goes under its key, unless the field is omit-if-empty and
holds its zero value. A field that is excluded or declares no key writes
nothing. -/
def putFlat (m : FieldMode) (text : String) (isZero : Bool) (h : Hash) : Hash :=
  match m with
  | .flat key om => if om && isZero then h else (key, text) :: h
  | _ => h

/-- Modelled from the spec: the step of the encoder of §4.2 for an expand
field. The encoded sub-record `sub` is merged into the parent's hash, each of
its keys named by `n`. -/
def putExpand (n : KeyNaming) (m : FieldMode) (sub : Hash) (isZero : Bool) (h : Hash) : Hash :=
  match m with
  | .expand key om =>
    if om && isZero then h else sub.map (fun e => (n.qual key e.1, e.2)) ++ h
  | _ => h

/-- Modelled from the spec: what an expand field reads on decoding (§4.3), the
entries of the parent's hash that belong to it, under the sub-record's own
keys. -/
def subHash (n : KeyNaming) (m : FieldMode) (h : Hash) : Hash :=
  match m with
  | .expand key _ => h.filterMap fun e => (n.unqual key e.1).map fun k => (k, e.2)
  | _ => []

/-- Modelled from the spec: decoding a flat string field (§4.3), the value
under its key, the empty string when the key is absent. -/
def getString (m : FieldMode) (h : Hash) : String :=
  match m with
  | .flat key _ => (h.get key).getD ""
  | _ => ""

/-- Modelled from the spec: decoding a flat boolean field (§4.3); text that is
not a boolean is a decode failure naming the key and the raw value. -/
def getBool (m : FieldMode) (h : Hash) : Except DecodeError Bool :=
  match m with
  | .flat key _ =>
    match h.get key with
    | none => .ok false
    | some s =>
      match parseBool s with
      | some b => .ok b
      | none => .error ⟨key, s⟩
  | _ => .ok false

/-- Modelled from the spec: decoding a flat `uint` field (§4.3). -/
def getUint (m : FieldMode) (h : Hash) : Except DecodeError Nat :=
  match m with
  | .flat key _ =>
    match h.get key with
    | none => .ok 0
    | some s =>
      match parseUint s with
      | some n => .ok n
      | none => .error ⟨key, s⟩
  | _ => .ok 0

/-- Modelled from the spec: decoding a flat time field (§4.3). -/
def getTime (tf : TimeFormat) (m : FieldMode) (h : Hash) : Except DecodeError Time :=
  match m with
  | .flat key _ =>
    match h.get key with
    | none => .ok {}
    | some s =>
      match tf.parse s with
      | some t => .ok t
      | none => .error ⟨key, s⟩
  | _ => .ok {}

/-- Keeps, for every key, the first entry of a list of entries. -/
def dedupKeys : List (String × String) → List (String × String)
  | [] => []
  | e :: es => e :: (dedupKeys es).filter fun x => x.1 != e.1

/-- Modelled from the spec: decoding an expanded `map[string]string` (§4.3),
the entries that belong to the field, one per key. -/
def getMap (n : KeyNaming) (m : FieldMode) (h : Hash) : StringMap :=
  dedupKeys (subHash n m h)

/-! ## Encoders and decoders of the record types

One step per declared field, in declaration order; the mode of each step is
read from the field's tag. -/

/-- Modelled from the spec: `encode` (§4.2) for `OutputOptions`. -/
def OutputOptions.encode (o : OutputOptions) : Hash :=
  [] |> putFlat (mode .OutputOptions "Extension") o.Extension (o.Extension == "")

/-- Modelled from the spec: `decode` (§4.3) for `OutputOptions`. -/
def OutputOptions.decode (h : Hash) : Except DecodeError OutputOptions :=
  .ok { Extension := getString (mode .OutputOptions "Extension") h }

/-- Modelled from the spec: `encode` (§4.2) for `PresetMap`; the expanded map
contributes its entries. -/
def PresetMap.encode (n : KeyNaming) (p : PresetMap) : Hash :=
  [] |> putFlat (mode .PresetMap "Name") p.Name (p.Name == "")
     |> putExpand n (mode .PresetMap "ProviderMapping") p.ProviderMapping
          p.ProviderMapping.isEmpty
     |> putExpand n (mode .PresetMap "OutputOpts") p.OutputOpts.encode (p.OutputOpts == {})

/-- Modelled from the spec: `decode` (§4.3) for `PresetMap`. -/
def PresetMap.decode (n : KeyNaming) (h : Hash) : Except DecodeError PresetMap :=
  match OutputOptions.decode (subHash n (mode .PresetMap "OutputOpts") h) with
  | .error e => .error e
  | .ok outputOpts =>
    .ok { Name := getString (mode .PresetMap "Name") h
          ProviderMapping := getMap n (mode .PresetMap "ProviderMapping") h
          OutputOpts := outputOpts }

/-- Modelled from the spec: `encode` (§4.2) for `TranscodeOutput`. -/
def TranscodeOutput.encode (n : KeyNaming) (t : TranscodeOutput) : Hash :=
  [] |> putExpand n (mode .TranscodeOutput "Preset") (t.Preset.encode n) (t.Preset == {})
     |> putFlat (mode .TranscodeOutput "FileName") t.FileName (t.FileName == "")

/-- Modelled from the spec: `decode` (§4.3) for `TranscodeOutput`. -/
def TranscodeOutput.decode (n : KeyNaming) (h : Hash) : Except DecodeError TranscodeOutput :=
  match PresetMap.decode n (subHash n (mode .TranscodeOutput "Preset") h) with
  | .error e => .error e
  | .ok preset =>
    .ok { Preset := preset
          FileName := getString (mode .TranscodeOutput "FileName") h }

/-- Modelled from the spec: `encode` (§4.2) for `StreamingParams`. -/
def StreamingParams.encode (s : StreamingParams) : Hash :=
  [] |> putFlat (mode .StreamingParams "SegmentDuration") (formatUint s.SegmentDuration)
          (s.SegmentDuration == 0)
     |> putFlat (mode .StreamingParams "Protocol") s.Protocol (s.Protocol == "")
     |> putFlat (mode .StreamingParams "PlaylistFileName") s.PlaylistFileName
          (s.PlaylistFileName == "")

/-- Modelled from the spec: `decode` (§4.3) for `StreamingParams`. -/
def StreamingParams.decode (h : Hash) : Except DecodeError StreamingParams :=
  match getUint (mode .StreamingParams "SegmentDuration") h with
  | .error e => .error e
  | .ok segmentDuration =>
    .ok { SegmentDuration := segmentDuration
          Protocol := getString (mode .StreamingParams "Protocol") h
          PlaylistFileName := getString (mode .StreamingParams "PlaylistFileName") h }

/-- Modelled from the spec: `encode` (§4.2) for `Job`. The field `Outputs`, a
list of records, has no flat form and is excluded by its tag: no step writes
it. -/
def Job.encode (n : KeyNaming) (tf : TimeFormat) (j : Job) : Hash :=
  [] |> putFlat (mode .Job "ID") j.ID (j.ID == "")
     |> putFlat (mode .Job "ProviderName") j.ProviderName (j.ProviderName == "")
     |> putFlat (mode .Job "ProviderJobID") j.ProviderJobID (j.ProviderJobID == "")
     |> putExpand n (mode .Job "StreamingParams") j.StreamingParams.encode
          (j.StreamingParams == {})
     |> putFlat (mode .Job "CreationTime") (tf.format j.CreationTime) (j.CreationTime == {})
     |> putFlat (mode .Job "SourceMedia") j.SourceMedia (j.SourceMedia == "")

/-- Modelled from the spec: `decode` (§4.3) for `Job`; `Outputs` is not read
from the hash and stays empty. -/
def Job.decode (n : KeyNaming) (tf : TimeFormat) (h : Hash) : Except DecodeError Job :=
  match StreamingParams.decode (subHash n (mode .Job "StreamingParams") h) with
  | .error e => .error e
  | .ok streamingParams =>
    match getTime tf (mode .Job "CreationTime") h with
    | .error e => .error e
    | .ok creationTime =>
      .ok { ID := getString (mode .Job "ID") h
            ProviderName := getString (mode .Job "ProviderName") h
            ProviderJobID := getString (mode .Job "ProviderJobID") h
            StreamingParams := streamingParams
            CreationTime := creationTime
            SourceMedia := getString (mode .Job "SourceMedia") h
            Outputs := [] }

/-- Modelled from the spec: `encode` (§4.2) for `VideoPreset`. -/
def VideoPreset.encode (v : VideoPreset) : Hash :=
  [] |> putFlat (mode .VideoPreset "Profile") v.Profile (v.Profile == "")
     |> putFlat (mode .VideoPreset "ProfileLevel") v.ProfileLevel (v.ProfileLevel == "")
     |> putFlat (mode .VideoPreset "Width") v.Width (v.Width == "")
     |> putFlat (mode .VideoPreset "Height") v.Height (v.Height == "")
     |> putFlat (mode .VideoPreset "Codec") v.Codec (v.Codec == "")
     |> putFlat (mode .VideoPreset "Bitrate") v.Bitrate (v.Bitrate == "")
     |> putFlat (mode .VideoPreset "GopSize") v.GopSize (v.GopSize == "")
     |> putFlat (mode .VideoPreset "GopMode") v.GopMode (v.GopMode == "")
     |> putFlat (mode .VideoPreset "InterlaceMode") v.InterlaceMode (v.InterlaceMode == "")
     |> putFlat (mode .VideoPreset "BFrames") v.BFrames (v.BFrames == "")

/-- Modelled from the spec: `decode` (§4.3) for `VideoPreset`. -/
def VideoPreset.decode (h : Hash) : Except DecodeError VideoPreset :=
  .ok { Profile := getString (mode .VideoPreset "Profile") h
        ProfileLevel := getString (mode .VideoPreset "ProfileLevel") h
        Width := getString (mode .VideoPreset "Width") h
        Height := getString (mode .VideoPreset "Height") h
        Codec := getString (mode .VideoPreset "Codec") h
        Bitrate := getString (mode .VideoPreset "Bitrate") h
        GopSize := getString (mode .VideoPreset "GopSize") h
        GopMode := getString (mode .VideoPreset "GopMode") h
        InterlaceMode := getString (mode .VideoPreset "InterlaceMode") h
        BFrames := getString (mode .VideoPreset "BFrames") h }

/-- Modelled from the spec: `encode` (§4.2) for `AudioPreset`. -/
def AudioPreset.encode (a : AudioPreset) : Hash :=
  [] |> putFlat (mode .AudioPreset "Codec") a.Codec (a.Codec == "")
     |> putFlat (mode .AudioPreset "Bitrate") a.Bitrate (a.Bitrate == "")

/-- Modelled from the spec: `decode` (§4.3) for `AudioPreset`. -/
def AudioPreset.decode (h : Hash) : Except DecodeError AudioPreset :=
  .ok { Codec := getString (mode .AudioPreset "Codec") h
        Bitrate := getString (mode .AudioPreset "Bitrate") h }

/-- Modelled from the spec: `encode` (§4.2) for `ThumbnailPreset`. -/
def ThumbnailPreset.encode (t : ThumbnailPreset) : Hash :=
  [] |> putFlat (mode .ThumbnailPreset "Codec") t.Codec (t.Codec == "")
     |> putFlat (mode .ThumbnailPreset "Width") t.Width (t.Width == "")
     |> putFlat (mode .ThumbnailPreset "Height") t.Height (t.Height == "")
     |> putFlat (mode .ThumbnailPreset "FrameCaptureNumerator") t.FrameCaptureNumerator
          (t.FrameCaptureNumerator == "")
     |> putFlat (mode .ThumbnailPreset "FrameCaptureDenominator") t.FrameCaptureDenominator
          (t.FrameCaptureDenominator == "")
     |> putFlat (mode .ThumbnailPreset "Quality") t.Quality (t.Quality == "")
     |> putFlat (mode .ThumbnailPreset "MaxCaptures") t.MaxCaptures (t.MaxCaptures == "")

/-- Modelled from the spec: `decode` (§4.3) for `ThumbnailPreset`. -/
def ThumbnailPreset.decode (h : Hash) : Except DecodeError ThumbnailPreset :=
  .ok { Codec := getString (mode .ThumbnailPreset "Codec") h
        Width := getString (mode .ThumbnailPreset "Width") h
        Height := getString (mode .ThumbnailPreset "Height") h
        FrameCaptureNumerator := getString (mode .ThumbnailPreset "FrameCaptureNumerator") h
        FrameCaptureDenominator := getString (mode .ThumbnailPreset "FrameCaptureDenominator") h
        Quality := getString (mode .ThumbnailPreset "Quality") h
        MaxCaptures := getString (mode .ThumbnailPreset "MaxCaptures") h }

/-- Modelled from the spec: `encode` (§4.2) for `Preset`. -/
def Preset.encode (n : KeyNaming) (p : Preset) : Hash :=
  [] |> putFlat (mode .Preset "Name") p.Name (p.Name == "")
     |> putFlat (mode .Preset "Description") p.Description (p.Description == "")
     |> putFlat (mode .Preset "Container") p.Container (p.Container == "")
     |> putFlat (mode .Preset "RateControl") p.RateControl (p.RateControl == "")
     |> putFlat (mode .Preset "TwoPass") (formatBool p.TwoPass) (p.TwoPass == false)
     |> putExpand n (mode .Preset "Video") p.Video.encode (p.Video == {})
     |> putExpand n (mode .Preset "Audio") p.Audio.encode (p.Audio == {})
     |> putExpand n (mode .Preset "Thumbnail") p.Thumbnail.encode (p.Thumbnail == {})

/-- Modelled from the spec: `decode` (§4.3) for `Preset`. -/
def Preset.decode (n : KeyNaming) (h : Hash) : Except DecodeError Preset :=
  match getBool (mode .Preset "TwoPass") h with
  | .error e => .error e
  | .ok twoPass =>
    match VideoPreset.decode (subHash n (mode .Preset "Video") h) with
    | .error e => .error e
    | .ok video =>
      match AudioPreset.decode (subHash n (mode .Preset "Audio") h) with
      | .error e => .error e
      | .ok audio =>
        match ThumbnailPreset.decode (subHash n (mode .Preset "Thumbnail") h) with
        | .error e => .error e
        | .ok thumbnail =>
          .ok { Name := getString (mode .Preset "Name") h
                Description := getString (mode .Preset "Description") h
                Container := getString (mode .Preset "Container") h
                RateControl := getString (mode .Preset "RateControl") h
                TwoPass := twoPass
                Video := video
                Audio := audio
                Thumbnail := thumbnail }

/-- Modelled from the spec: `encode` (§4.2) for `LocalPreset`. -/
def LocalPreset.encode (n : KeyNaming) (l : LocalPreset) : Hash :=
  [] |> putFlat (mode .LocalPreset "Name") l.Name (l.Name == "")
     |> putExpand n (mode .LocalPreset "Preset") (l.Preset.encode n) (l.Preset == {})

/-- Modelled from the spec: `decode` (§4.3) for `LocalPreset`. -/
def LocalPreset.decode (n : KeyNaming) (h : Hash) : Except DecodeError LocalPreset :=
  match Preset.decode n (subHash n (mode .LocalPreset "Preset") h) with
  | .error e => .error e
  | .ok preset =>
    .ok { Name := getString (mode .LocalPreset "Name") h
          Preset := preset }

/-! ## The flattened field schema of a record type -/

/-- A field of the flat representation: the path of Go field names that leads
to it from the record, its hash key, and its omit-if-empty flag. -/
structure Leaf where
  path : List String
  key : String
  omitempty : Bool
  deriving DecidableEq, Repr

/-- Modelled from the spec: the field schema of §4.1 with the expand fields
resolved. A flat field gives one entry under its key; an expand field of struct
type gives the entries of that struct's schema, their keys named by `n`; an
excluded or unmapped field gives none, and so does an expanded map, whose keys
are not declared. The first argument bounds the nesting depth. -/
def leaves (n : KeyNaming) : Nat → RecordType → List Leaf
  | 0, _ => []
  | d + 1, ty =>
    (parsedFields ty).flatMap fun f =>
      match f.2.2 with
      | .flat key om => [⟨[f.1], key, om⟩]
      | .expand key _ =>
        match f.2.1 with
        | .struct s =>
          (leaves n d s).map fun l => ⟨f.1 :: l.path, n.qual key l.key, l.omitempty⟩
        | _ => []
      | _ => []

/-- The deepest nesting of struct types in `db/types.go`: a record, a record
inside it, and a record inside that one (`LocalPreset`, `Preset`,
`VideoPreset`). -/
def schemaDepth : Nat := 3

/-- The flat schema of a record type. -/
def schema (n : KeyNaming) (ty : RecordType) : List Leaf :=
  leaves n schemaDepth ty

/-- The hash keys declared by a record type across its full nesting. -/
def hashKeys (n : KeyNaming) (ty : RecordType) : List String :=
  (schema n ty).map Leaf.key

/-! ## Records of any declared type -/

/-- A record of one of the types declared in `db/types.go`. -/
inductive Record
  | job (j : Job)
  | transcodeOutput (t : TranscodeOutput)
  | streamingParams (s : StreamingParams)
  | localPreset (l : LocalPreset)
  | preset (p : Preset)
  | videoPreset (v : VideoPreset)
  | audioPreset (a : AudioPreset)
  | thumbnailPreset (t : ThumbnailPreset)
  | presetMap (m : PresetMap)
  | outputOptions (o : OutputOptions)
  deriving DecidableEq, Repr

/-- The type of a record. -/
def Record.type : Record → RecordType
  | .job _ => .Job
  | .transcodeOutput _ => .TranscodeOutput
  | .streamingParams _ => .StreamingParams
  | .localPreset _ => .LocalPreset
  | .preset _ => .Preset
  | .videoPreset _ => .VideoPreset
  | .audioPreset _ => .AudioPreset
  | .thumbnailPreset _ => .ThumbnailPreset
  | .presetMap _ => .PresetMap
  | .outputOptions _ => .OutputOptions

/-- Modelled from the spec: `encode(record)` of §4.2. -/
def Record.encode (n : KeyNaming) (tf : TimeFormat) : Record → Hash
  | .job j => j.encode n tf
  | .transcodeOutput t => t.encode n
  | .streamingParams s => s.encode
  | .localPreset l => l.encode n
  | .preset p => p.encode n
  | .videoPreset v => v.encode
  | .audioPreset a => a.encode
  | .thumbnailPreset t => t.encode
  | .presetMap m => m.encode n
  | .outputOptions o => o.encode

/-- Modelled from the spec: `decode(flat mapping, target type)` of §4.3. -/
def Record.decode (n : KeyNaming) (tf : TimeFormat) (ty : RecordType) (h : Hash) :
    Except DecodeError Record :=
  match ty with
  | .Job => (Job.decode n tf h).map .job
  | .TranscodeOutput => (TranscodeOutput.decode n h).map .transcodeOutput
  | .StreamingParams => (StreamingParams.decode h).map .streamingParams
  | .LocalPreset => (LocalPreset.decode n h).map .localPreset
  | .Preset => (Preset.decode n h).map .preset
  | .VideoPreset => (VideoPreset.decode h).map .videoPreset
  | .AudioPreset => (AudioPreset.decode h).map .audioPreset
  | .ThumbnailPreset => (ThumbnailPreset.decode h).map .thumbnailPreset
  | .PresetMap => (PresetMap.decode n h).map .presetMap
  | .OutputOptions => (OutputOptions.decode h).map .outputOptions

/-- The string fields of a record, each under the path of Go field names that
leads to it. -/
abbrev StringFields := List (List String × String)

/-- The fields of a nested record, seen from the record that holds it in field
`name`. -/
def nest (name : String) (fs : StringFields) : StringFields :=
  fs.map fun e => (name :: e.1, e.2)

/-- The string fields of an `OutputOptions`. -/
def OutputOptions.stringFields (o : OutputOptions) : StringFields :=
  [ (["Extension"], o.Extension) ]

/-- The string fields of a `PresetMap`. -/
def PresetMap.stringFields (p : PresetMap) : StringFields :=
  [ (["Name"], p.Name) ] ++ nest "OutputOpts" p.OutputOpts.stringFields

/-- The string fields of a `TranscodeOutput`. -/
def TranscodeOutput.stringFields (t : TranscodeOutput) : StringFields :=
  nest "Preset" t.Preset.stringFields ++ [ (["FileName"], t.FileName) ]

/-- The string fields of a `StreamingParams`. -/
def StreamingParams.stringFields (s : StreamingParams) : StringFields :=
  [ (["Protocol"], s.Protocol), (["PlaylistFileName"], s.PlaylistFileName) ]

/-- The string fields of a `Job`. -/
def Job.stringFields (j : Job) : StringFields :=
  [ (["ID"], j.ID), (["ProviderName"], j.ProviderName), (["ProviderJobID"], j.ProviderJobID) ] ++
    nest "StreamingParams" j.StreamingParams.stringFields ++ [ (["SourceMedia"], j.SourceMedia) ]

/-- The string fields of a `VideoPreset`. -/
def VideoPreset.stringFields (v : VideoPreset) : StringFields :=
  [ (["Profile"], v.Profile), (["ProfileLevel"], v.ProfileLevel), (["Width"], v.Width),
    (["Height"], v.Height), (["Codec"], v.Codec), (["Bitrate"], v.Bitrate),
    (["GopSize"], v.GopSize), (["GopMode"], v.GopMode), (["InterlaceMode"], v.InterlaceMode),
    (["BFrames"], v.BFrames) ]

/-- The string fields of an `AudioPreset`. -/
def AudioPreset.stringFields (a : AudioPreset) : StringFields :=
  [ (["Codec"], a.Codec), (["Bitrate"], a.Bitrate) ]

/-- The string fields of a `ThumbnailPreset`. -/
def ThumbnailPreset.stringFields (t : ThumbnailPreset) : StringFields :=
  [ (["Codec"], t.Codec), (["Width"], t.Width), (["Height"], t.Height),
    (["FrameCaptureNumerator"], t.FrameCaptureNumerator),
    (["FrameCaptureDenominator"], t.FrameCaptureDenominator), (["Quality"], t.Quality),
    (["MaxCaptures"], t.MaxCaptures) ]

/-- The string fields of a `Preset`. -/
def Preset.stringFields (p : Preset) : StringFields :=
  [ (["Name"], p.Name), (["Description"], p.Description), (["Container"], p.Container),
    (["RateControl"], p.RateControl) ] ++
    nest "Video" p.Video.stringFields ++ nest "Audio" p.Audio.stringFields ++
    nest "Thumbnail" p.Thumbnail.stringFields

/-- The string fields of a `LocalPreset`. -/
def LocalPreset.stringFields (l : LocalPreset) : StringFields :=
  [ (["Name"], l.Name) ] ++ nest "Preset" l.Preset.stringFields

/-- The string fields of a record. -/
def Record.stringFields : Record → StringFields
  | .job j => j.stringFields
  | .transcodeOutput t => t.stringFields
  | .streamingParams s => s.stringFields
  | .localPreset l => l.stringFields
  | .preset p => p.stringFields
  | .videoPreset v => v.stringFields
  | .audioPreset a => a.stringFields
  | .thumbnailPreset t => t.stringFields
  | .presetMap m => m.stringFields
  | .outputOptions o => o.stringFields

end db

namespace redis

/-- The Go type `redisRepository`: two pointers, `none` for `nil`. The types
`config.Config` and `storage.Storage` belong to other packages and stay
abstract. -/
structure redisRepository (Cfg Storage : Type) where
  config : Option Cfg
  storage : Option Storage

/-- How a call ends: it returns, or it panics. -/
inductive Outcome (α : Type)
  | returns (a : α)
  | panics

/-- The function `NewRepository(cfg *config.Config) (db.Repository, error)`.
`redisOf` reads the field `cfg.Redis`, `NewStorage` stands for
`storage.NewStorage`, returning its pair of results. Reading `cfg.Redis`
through a nil pointer panics. -/
def NewRepository {Cfg RedisCfg Storage : Type} (redisOf : Cfg → RedisCfg)
    (NewStorage : RedisCfg → Option Storage × Option db.GoError) (cfg : Option Cfg) :
    Outcome (Option (redisRepository Cfg Storage) × Option db.GoError) :=
  match cfg with
  | none => .panics
  | some c =>
    match NewStorage (redisOf c) with
    | (s, err) =>
      if err ≠ none then .returns (none, err)
      else .returns (some { config := cfg, storage := s }, none)

end redis

namespace db

/-! ## Lemmas on the textual encodings -/

theorem parsedFields_Job : parsedFields .Job =
    [ ("ID", .string, .flat "jobID" false),
      ("ProviderName", .string, .flat "providerName" false),
      ("ProviderJobID", .string, .flat "providerJobID" false),
      ("StreamingParams", .struct .StreamingParams, .expand "streamingparams" false),
      ("CreationTime", .time, .flat "creationTime" false),
      ("SourceMedia", .string, .flat "source" false),
      ("Outputs", .sliceOf .TranscodeOutput, .excluded) ] := by decide

theorem parsedFields_TranscodeOutput : parsedFields .TranscodeOutput =
    [ ("Preset", .struct .PresetMap, .expand "presetmap" false),
      ("FileName", .string, .flat "filename" false) ] := by decide

theorem parsedFields_StreamingParams : parsedFields .StreamingParams =
    [ ("SegmentDuration", .uint, .flat "segmentDuration" false),
      ("Protocol", .string, .flat "protocol" false),
      ("PlaylistFileName", .string, .flat "playlistFileName" false) ] := by decide

theorem parsedFields_LocalPreset : parsedFields .LocalPreset =
    [ ("Name", .string, .excluded),
      ("Preset", .struct .Preset, .expand "preset" false) ] := by decide

theorem parsedFields_Preset : parsedFields .Preset =
    [ ("Name", .string, .flat "name" false),
      ("Description", .string, .flat "description" true),
      ("Container", .string, .flat "container" true),
      ("RateControl", .string, .flat "ratecontrol" true),
      ("TwoPass", .bool, .flat "twopass" false),
      ("Video", .struct .VideoPreset, .expand "video" false),
      ("Audio", .struct .AudioPreset, .expand "audio" false),
      ("Thumbnail", .struct .ThumbnailPreset, .expand "thumbnail" false) ] := by decide

theorem parsedFields_VideoPreset : parsedFields .VideoPreset =
    [ ("Profile", .string, .flat "profile" true),
      ("ProfileLevel", .string, .flat "profilelevel" true),
      ("Width", .string, .flat "width" true),
      ("Height", .string, .flat "height" true),
      ("Codec", .string, .flat "codec" true),
      ("Bitrate", .string, .flat "bitrate" true),
      ("GopSize", .string, .flat "gopsize" true),
      ("GopMode", .string, .flat "gopmode" true),
      ("InterlaceMode", .string, .flat "interlacemode" true),
      ("BFrames", .string, .flat "bframes" true) ] := by decide

theorem parsedFields_AudioPreset : parsedFields .AudioPreset =
    [ ("Codec", .string, .flat "codec" true),
      ("Bitrate", .string, .flat "bitrate" true) ] := by decide

theorem parsedFields_ThumbnailPreset : parsedFields .ThumbnailPreset =
    [ ("Codec", .string, .flat "codec" true),
      ("Width", .string, .flat "width" true),
      ("Height", .string, .flat "height" true),
      ("FrameCaptureNumerator", .string, .unmapped),
      ("FrameCaptureDenominator", .string, .unmapped),
      ("Quality", .string, .unmapped),
      ("MaxCaptures", .string, .unmapped) ] := by decide

theorem parsedFields_PresetMap : parsedFields .PresetMap =
    [ ("Name", .string, .flat "presetmap_name" false),
      ("ProviderMapping", .mapStringString, .expand "pmapping" false),
      ("OutputOpts", .struct .OutputOptions, .expand "output" false) ] := by decide

theorem parsedFields_OutputOptions : parsedFields .OutputOptions =
    [ ("Extension", .string, .flat "extension" false) ] := by decide

/-- More depth than `schemaDepth` adds nothing to a schema. -/
theorem leaves_depth (n : KeyNaming) (d : Nat) (ty : RecordType) :
    leaves n (d + schemaDepth) ty = schema n ty := by
  cases ty <;>
    simp [schema, schemaDepth, leaves, parsedFields_Job, parsedFields_TranscodeOutput,
      parsedFields_StreamingParams, parsedFields_LocalPreset, parsedFields_Preset,
      parsedFields_VideoPreset, parsedFields_AudioPreset, parsedFields_ThumbnailPreset,
      parsedFields_PresetMap, parsedFields_OutputOptions]

/-! ## The encoders and decoders with the modes read off the tags -/

/-- Claim C1: `Validate` returns an error exactly when `Extension` is the empty
string, and nil for every non-empty extension, among them `" "` and `".webm"`. -/
theorem validate_error_iff_empty (o : OutputOptions) :
    (o.Validate.2 ≠ none ↔ o.Extension = "") ∧ (o.Validate.2 = none ↔ o.Extension ≠ "") ∧
      (OutputOptions.Validate { Extension := " " }).2 = none ∧
      (OutputOptions.Validate { Extension := ".webm" }).2 = none := by
  refine ⟨?_, ?_, by decide, by decide⟩
  · unfold OutputOptions.Validate
    by_cases h : o.Extension = "" <;> simp [h]
  · unfold OutputOptions.Validate
    by_cases h : o.Extension = "" <;> simp [h]

/-- Claim C9: on the extension `".webm"`, which starts with a dot, `Validate`
returns nil. A validated `OutputOptions` may thus hold an extension with a
leading dot, against the rule its doc comment states (use `webm`, not `.webm`):
the implication of the claim fails at this value. -/
theorem validate_accepts_leading_dot :
    (OutputOptions.Validate { Extension := ".webm" }).2 = none ∧
      startsWithDot ".webm" = true ∧
      ¬ ((OutputOptions.Validate { Extension := ".webm" }).2 = none →
          (".webm" ≠ "" ∧ startsWithDot ".webm" = false)) := by
  decide

/-- Claim C10: `Validate` leaves its receiver as it found it, whether it fails
or not; a second call on the receiver, or a call on a value with the same
extension, gives the same outcome; and a returned error carries the message
`extension is required`. -/
theorem validate_pure (o : OutputOptions) :
    o.Validate.1 = o ∧
      o.Validate.1.Validate = o.Validate ∧
      (∀ o2 : OutputOptions, o2.Extension = o.Extension → o2.Validate.2 = o.Validate.2) ∧
      (∀ e, o.Validate.2 = some e → e.msg = "extension is required") := by
  have h1 : o.Validate.1 = o := by
    unfold OutputOptions.Validate
    split <;> rfl
  refine ⟨h1, by rw [h1], ?_, ?_⟩
  · intro o2 h2
    unfold OutputOptions.Validate
    rw [h2]
    split <;> rfl
  · intro e he
    unfold OutputOptions.Validate at he
    split at he
    · cases he
      rfl
    · cases he

/-- Claim C6: the fields of `db/types.go` whose tag is not a well-formed
`redis-hash` tag are the last four of `ThumbnailPreset`. Their tags hold no
`redis-hash` entry at all, so they declare no hash key, and encoding a
`ThumbnailPreset` that sets only these fields writes nothing. -/
theorem thumbnail_fields_without_hash_key :
    ((allFields.filter fun tf => !wellFormedTag tf.2.redisHash).map
        fun tf => (tf.1, tf.2.name, tf.2.redisHash)) =
      [ (.ThumbnailPreset, "FrameCaptureNumerator", none),
        (.ThumbnailPreset, "FrameCaptureDenominator", none),
        (.ThumbnailPreset, "Quality", none),
        (.ThumbnailPreset, "MaxCaptures", none) ] ∧
      mode .ThumbnailPreset "FrameCaptureNumerator" = .unmapped ∧
      mode .ThumbnailPreset "FrameCaptureDenominator" = .unmapped ∧
      mode .ThumbnailPreset "Quality" = .unmapped ∧
      mode .ThumbnailPreset "MaxCaptures" = .unmapped ∧
      mode .ThumbnailPreset "Height" = .flat "height" true ∧
      ThumbnailPreset.encode
        { FrameCaptureNumerator := "1", FrameCaptureDenominator := "2", Quality := "90",
          MaxCaptures := "5" } = [] := by
  decide

/-- Claim C7, counterexample: `LocalPreset.Name` is a declared field, its tag is
the exclusion `redis-hash:"-"`, and it is not `Job.Outputs`. -/
theorem localPreset_name_excluded :
    ¬ (∀ tf ∈ allFields,
        (tf.2.redisHash = some "-" ↔ (tf.1 = RecordType.Job ∧ tf.2.name = "Outputs"))) ∧
      (RecordType.LocalPreset,
        (⟨"Name", .string, "redis-hash:\"-\" json:\"name\""⟩ : StructField)) ∈ allFields ∧
      mode .LocalPreset "Name" = .excluded := by
  decide

/-- Claim C7, amended: across the record types of `db/types.go`, the fields with
the exclusion tag `redis-hash:"-"` are exactly `Job.Outputs` and
`LocalPreset.Name`. -/
theorem excluded_fields :
    ((allFields.filter fun tf => tf.2.redisHash == some "-").map
        fun tf => (tf.1, tf.2.name)) =
      [ (.Job, "Outputs"), (.LocalPreset, "Name") ] ∧
      (allFields.filter fun tf => decide (parseTag tf.2.redisHash = .excluded)) =
        allFields.filter fun tf => tf.2.redisHash == some "-" := by
  decide

/-- Claim C5, counterexample: with no prefix, `Video.Codec` and `Audio.Codec` of
a `Preset` are two fields with the one hash key `codec`, so the keys of `Preset`
are not pairwise distinct. -/
theorem preset_keys_collide :
    (⟨["Video", "Codec"], "codec", true⟩ : Leaf) ∈ schema noPrefix .Preset ∧
      (⟨["Audio", "Codec"], "codec", true⟩ : Leaf) ∈ schema noPrefix .Preset ∧
      ¬ (hashKeys noPrefix .Preset).Nodup ∧
      ¬ (∀ ty ∈ [RecordType.Job, .TranscodeOutput, .LocalPreset, .Preset, .PresetMap],
          (hashKeys noPrefix ty).Nodup) := by
  decide

/-- Claim C5, amended: with no prefix the declared hash keys of `Job`,
`TranscodeOutput` and `PresetMap` are pairwise distinct; those of `Preset` and
`LocalPreset` are pairwise distinct once every expanded key carries the name
its expand field declares, and then so are the keys of all five types. -/
theorem hashKeys_distinct :
    (∀ ty ∈ [RecordType.Job, .TranscodeOutput, .PresetMap], (hashKeys noPrefix ty).Nodup) ∧
      (∀ ty ∈ [RecordType.Job, .TranscodeOutput, .LocalPreset, .Preset, .PresetMap],
        (hashKeys dotted ty).Nodup) := by
  decide

end db

namespace redis

/-- Claim C8: for a non-nil `cfg`, `NewRepository` returns `(nil, err)` with the
very error of `storage.NewStorage(cfg.Redis)` when that call fails, and
otherwise a nil error with a repository whose config is `cfg` and whose storage
is what `NewStorage` returned; it never returns both a repository and an
error. -/
theorem NewRepository_returns {Cfg RedisCfg Storage : Type} (redisOf : Cfg → RedisCfg)
    (NewStorage : RedisCfg → Option Storage × Option db.GoError) (c : Cfg) :
    (∀ e, (NewStorage (redisOf c)).2 = some e →
        NewRepository redisOf NewStorage (some c) = .returns (none, some e)) ∧
      ((NewStorage (redisOf c)).2 = none →
        NewRepository redisOf NewStorage (some c) =
          .returns (some { config := some c, storage := (NewStorage (redisOf c)).1 }, none)) ∧
      (∀ r e, NewRepository redisOf NewStorage (some c) = .returns (r, e) →
        ¬ (r.isSome = true ∧ e.isSome = true)) := by
  cases hs : NewStorage (redisOf c) with
  | mk s err =>
    cases err with
    | none =>
      refine ⟨?_, ?_, ?_⟩
      · intro e he
        cases he
      · intro _
        simp [NewRepository, hs]
      · intro r e h
        simp [NewRepository, hs] at h
        obtain ⟨-, rfl⟩ := h
        simp
    | some e0 =>
      refine ⟨?_, ?_, ?_⟩
      · intro e he
        cases he
        simp [NewRepository, hs]
      · intro h
        cases h
      · intro r e h
        simp [NewRepository, hs] at h
        obtain ⟨rfl, -⟩ := h
        simp

end redis
